import Mathlib

/-!
# Verification of SVNMerge

Shallow embedding of the two scripts `SVNMerge.py` (strict variant) and
`SVMMergeWithTortoise.py` (interactive variant).

External commands are modelled by an environment `Env` that fixes, for the
k-th `svn` subprocess invocation of a run, the process outcome (`CmdOutput`:
exit code, stdout, stderr), and for the k-th TortoiseSVN invocation its
outcome (`ProcOutcome`: executable not found, or an exit code).  The scripts
are embedded as state-passing functions threading a `RunState` that records
how many subprocesses of each kind have been launched and the full ordered
trace of subprocess invocations (`Invocation`: argv list plus working
directory).  Python exceptions become explicit result values:
`Except String α` for a `RuntimeError` carrying its message, and `PyResult`
for a block that can finish normally, raise `SystemExit` (`sys.exit`), or
raise an `Exception`.  `SystemExit` is deliberately distinct from `raised`
because `except Exception` does not catch it.
-/

/-- Outcome of one completed external process: exit code and the two
captured output streams (`subprocess.run(..., capture_output=True)`). -/
structure CmdOutput where
  returncode : Int
  stdout : String
  stderr : String
deriving Repr, DecidableEq

/-- Outcome of launching an external process that may not exist on PATH:
either the executable was not found (`FileNotFoundError`) or it ran and
exited with a code. -/
inductive ProcOutcome where
  | notFound : ProcOutcome
  | exited (code : Int) : ProcOutcome
deriving Repr, DecidableEq

/-- The external world of one run: the outcome of the k-th `svn` invocation
and of the k-th TortoiseSVN invocation. -/
structure Env where
  svn : Nat → CmdOutput
  tortoise : Nat → ProcOutcome

/-- One subprocess invocation: the argv list and the `cwd` argument. -/
structure Invocation where
  command : List String
  cwd : Option String
deriving Repr, DecidableEq

/-- Run-local bookkeeping: number of `svn` subprocesses launched so far,
number of TortoiseSVN subprocesses launched so far, and the ordered trace
of all subprocess invocations. -/
structure RunState where
  svnCalls : Nat
  tortCalls : Nat
  trace : List Invocation
deriving Repr, DecidableEq

/-- The state at the start of `main`, before any subprocess has run. -/
def initState : RunState := ⟨0, 0, []⟩

/-- The `error_message` string built by `run_command` when the subprocess
exits non-zero (`SVNMerge.py` lines 32–37): it interpolates the joined
command, the return code, and the stripped stdout and stderr. -/
def error_message (command : List String) (out : CmdOutput) : String :=
  "Command failed: " ++ String.intercalate " " command ++ "\n" ++
    "Return code: " ++ toString out.returncode ++ "\n" ++
    "Output: " ++ out.stdout.trim ++ "\n" ++
    "Error: " ++ out.stderr.trim

/-- The function `run_command` (`SVNMerge.py` lines 20–38): with `check=True`, exit code 0
yields the stripped stdout; a non-zero exit code raises `RuntimeError`
with `error_message`. -/
def run_command (command : List String) (out : CmdOutput) : Except String String :=
  if out.returncode = 0 then
    Except.ok out.stdout.trim
  else
    Except.error (error_message command out)

/-- Launch one `svn` subprocess: its outcome is given by the environment at
the current `svn` invocation index; the invocation is recorded in the trace. -/
def exec_svn (env : Env) (command : List String) (cwd : Option String) (s : RunState) :
    Except String String × RunState :=
  (run_command command (env.svn s.svnCalls),
   { s with svnCalls := s.svnCalls + 1, trace := s.trace ++ [⟨command, cwd⟩] })

/-- A revision entry of the `revisions` JSON array: a string or an integer. -/
inductive Rev where
  | str (s : String) : Rev
  | int (n : Int) : Rev
deriving Repr, DecidableEq

/-- Python `str(revision)` applied to a revision entry. -/
def Rev.toStr : Rev → String
  | .str s => s
  | .int n => toString n

/-- The configuration object obtained from `config.json`: each scalar field
is absent (`none`) or a string; `revisions` is absent or a list of entries. -/
structure Config where
  source_branch : Option String
  target_branch : Option String
  working_dir : Option String
  revisions : Option (List Rev)
deriving Repr, DecidableEq

/-- Python truthiness of `config.get(field)` for a string field: `None` and
the empty string are falsy. -/
def truthyStr : Option String → Bool
  | none => false
  | some s => !(s == "")

/-- The validation guard of `main` (`SVNMerge.py` line 77):
`source_branch and target_branch and working_dir and revisions`, where
`revisions = config.get("revisions", [])` and an empty list is falsy. -/
def configValid (config : Config) : Bool :=
  truthyStr config.source_branch && truthyStr config.target_branch &&
    truthyStr config.working_dir && !(config.revisions.getD []).isEmpty

/-- argv of `svn switch` (`svn_switch`). -/
def switchCmd (branch_path : String) : List String :=
  ["svn", "switch", branch_path]

/-- argv of `svn update` (`svn_update`). -/
def updateCmd : List String :=
  ["svn", "update", "--set-depth", "infinity"]

/-- argv of `svn revert` (`svn_revert`). -/
def revertCmd : List String :=
  ["svn", "revert", "-R", "."]

/-- argv of `svn merge` for one revision (`svn_merge`): merge exactly the
change of `revision` with the `theirs-full` automatic conflict policy. -/
def mergeCmd (revision source_branch : String) : List String :=
  ["svn", "merge", "-c", revision, source_branch, "--accept", "theirs-full"]

/-- The function `svn_switch` (both scripts, lines 40–43). -/
def svn_switch (env : Env) (branch_path working_dir : String) (s : RunState) :
    Except String String × RunState :=
  exec_svn env (switchCmd branch_path) (some working_dir) s

/-- The function `svn_update` (both scripts, lines 45–48). -/
def svn_update (env : Env) (working_dir : String) (s : RunState) :
    Except String String × RunState :=
  exec_svn env updateCmd (some working_dir) s

/-- The function `svn_revert` (both scripts, lines 50–53). -/
def svn_revert (env : Env) (working_dir : String) (s : RunState) :
    Except String String × RunState :=
  exec_svn env revertCmd (some working_dir) s

namespace SVNMerge

/-- The function `svn_merge` of the strict script (`SVNMerge.py` lines 55–61): one `svn
merge -c revision source_branch --accept theirs-full` invocation; a failure
propagates as the `RuntimeError` of `run_command`. -/
def svn_merge (env : Env) (revision source_branch working_dir : String) (s : RunState) :
    Except String String × RunState :=
  exec_svn env (mergeCmd revision source_branch) (some working_dir) s

/-- Result of the revision loop of the strict `main`: finished normally,
terminated via `sys.exit code` (a `SystemExit`, not caught by
`except Exception`), or an uncaught `Exception` carrying a message. -/
inductive LoopResult where
  | ok : LoopResult
  | exited (code : Nat) : LoopResult
  | raised (msg : String) : LoopResult
deriving Repr, DecidableEq

/-- The `for revision in revisions` loop of the strict `main` (lines 87–95):
merge each revision in list order; on a merge failure the inner
`except Exception` reverts the working copy and calls `sys.exit(1)`; if that
revert itself raises, the new exception propagates to the outer handler. -/
def merge_loop (env : Env) (source_branch working_dir : String) :
    List Rev → RunState → LoopResult × RunState
  | [], s => (.ok, s)
  | r :: rest, s =>
    match svn_merge env r.toStr source_branch working_dir s with
    | (.ok _, s1) => merge_loop env source_branch working_dir rest s1
    | (.error _, s1) =>
      match svn_revert env working_dir s1 with
      | (.ok _, s2) => (.exited 1, s2)
      | (.error e2, s2) => (.raised e2, s2)

/-- The outer `except Exception` handler of the strict `main` (lines
99–103): revert and exit 1.  Whether the revert succeeds (then
`sys.exit(1)`) or raises (uncaught `RuntimeError`), the process exit
status is 1. -/
def outer_handler (env : Env) (working_dir : String) (s : RunState) : Nat × RunState :=
  (1, (svn_revert env working_dir s).2)

/-- The function `main` of `SVNMerge.py` (lines 63–103), starting after the configuration
is loaded: validate the four fields, then switch, update, and merge each
revision in order; any failure reverts and exits 1.  Returns the process
exit status together with the final `RunState`. -/
def main (env : Env) (config : Config) : Nat × RunState :=
  let revisions := (config.revisions.getD [])
  if configValid config then
    let source_branch := config.source_branch.getD ""
    let target_branch := config.target_branch.getD ""
    let working_dir := config.working_dir.getD ""
    match svn_switch env target_branch working_dir initState with
    | (.error _, s1) => outer_handler env working_dir s1
    | (.ok _, s1) =>
      match svn_update env working_dir s1 with
      | (.error _, s2) => outer_handler env working_dir s2
      | (.ok _, s2) =>
        match merge_loop env source_branch working_dir revisions s2 with
        | (.ok, s3) => (0, s3)
        | (.exited c, s3) => (c, s3)
        | (.raised _, s3) => outer_handler env working_dir s3
  else (1, initState)

end SVNMerge

namespace SVMMergeWithTortoise

/-- Result of a Python block of the interactive script: finished normally,
raised `SystemExit code` (`sys.exit`), or raised an `Exception` with a
message.  `SystemExit` derives from `BaseException`, not `Exception`, so the
`except Exception` handlers in `main` do not intercept it. -/
inductive PyResult where
  | ok : PyResult
  | exited (code : Nat) : PyResult
  | raised (msg : String) : PyResult
deriving Repr, DecidableEq

/-- The TortoiseSVN executable name (`SVMMergeWithTortoise.py` line 63). -/
def tortoise_proc_path : String := "TortoiseProc.exe"

/-- argv of the TortoiseSVN resolve invocation (line 65). -/
def tortoiseCmd (working_dir : String) : List String :=
  [tortoise_proc_path, "/command:resolve", "/path:" ++ working_dir]

/-- The function `existWithError` (lines 55–58): revert all changes and `sys.exit(1)`.
If the revert itself raises, that exception propagates to the caller. -/
def existWithError (env : Env) (working_dir : String) (s : RunState) :
    PyResult × RunState :=
  match svn_revert env working_dir s with
  | (.ok _, s1) => (.exited 1, s1)
  | (.error e, s1) => (.raised e, s1)

/-- The function `svn_resolve_with_tortoise` (lines 60–72): attempt to launch
TortoiseSVN; on `FileNotFoundError` or a non-zero exit
(`CalledProcessError`), fall back to `existWithError`. -/
def svn_resolve_with_tortoise (env : Env) (working_dir : String) (s : RunState) :
    PyResult × RunState :=
  let s1 : RunState :=
    { s with tortCalls := s.tortCalls + 1,
             trace := s.trace ++ [⟨tortoiseCmd working_dir, none⟩] }
  match env.tortoise s.tortCalls with
  | .notFound => existWithError env working_dir s1
  | .exited code => if code = 0 then (.ok, s1) else existWithError env working_dir s1

/-- The function `svn_merge` of the interactive script (lines 74–84): run the merge
command; on `RuntimeError` hand off to `svn_resolve_with_tortoise`.  The
merge completes normally when either the command succeeds or the interactive
tool finishes without error. -/
def svn_merge (env : Env) (revision source_branch working_dir : String) (s : RunState) :
    PyResult × RunState :=
  match exec_svn env (mergeCmd revision source_branch) (some working_dir) s with
  | (.ok _, s1) => (.ok, s1)
  | (.error _, s1) => svn_resolve_with_tortoise env working_dir s1

/-- The `for revision in revisions` loop of the interactive `main`
(lines 110–117): a `SystemExit` escaping `svn_merge` propagates past the
inner `except Exception`; an `Exception` escaping it (a failed revert inside
`existWithError`) is caught by the inner handler, which calls
`existWithError` again. -/
def merge_loop (env : Env) (source_branch working_dir : String) :
    List Rev → RunState → PyResult × RunState
  | [], s => (.ok, s)
  | r :: rest, s =>
    match svn_merge env r.toStr source_branch working_dir s with
    | (.ok, s1) => merge_loop env source_branch working_dir rest s1
    | (.exited c, s1) => (.exited c, s1)
    | (.raised _, s1) => existWithError env working_dir s1

/-- The outer `except Exception` handler of the interactive `main`
(lines 121–124): `existWithError`.  Whether it exits via `sys.exit(1)` or
its revert raises an uncaught exception, the process exit status is 1. -/
def outer_handler (env : Env) (working_dir : String) (s : RunState) : Nat × RunState :=
  (1, (existWithError env working_dir s).2)

/-- The function `main` of `SVMMergeWithTortoise.py` (lines 86–124), starting after the
configuration is loaded. -/
def main (env : Env) (config : Config) : Nat × RunState :=
  let revisions := (config.revisions.getD [])
  if configValid config then
    let source_branch := config.source_branch.getD ""
    let target_branch := config.target_branch.getD ""
    let working_dir := config.working_dir.getD ""
    match svn_switch env target_branch working_dir initState with
    | (.error _, s1) => outer_handler env working_dir s1
    | (.ok _, s1) =>
      match svn_update env working_dir s1 with
      | (.error _, s2) => outer_handler env working_dir s2
      | (.ok _, s2) =>
        match merge_loop env source_branch working_dir revisions s2 with
        | (.ok, s3) => (0, s3)
        | (.exited c, s3) => (c, s3)
        | (.raised _, s3) => outer_handler env working_dir s3
  else (1, initState)

end SVMMergeWithTortoise

/-! ## Trace vocabulary -/

/-- The trace entry of an `svn switch` invocation. -/
def switchInv (branch_path working_dir : String) : Invocation :=
  ⟨switchCmd branch_path, some working_dir⟩

/-- The trace entry of an `svn update` invocation. -/
def updateInv (working_dir : String) : Invocation :=
  ⟨updateCmd, some working_dir⟩

/-- The trace entry of an `svn revert` invocation. -/
def revertInv (working_dir : String) : Invocation :=
  ⟨revertCmd, some working_dir⟩

/-- The trace entry of an `svn merge` invocation. -/
def mergeInv (revision source_branch working_dir : String) : Invocation :=
  ⟨mergeCmd revision source_branch, some working_dir⟩

/-- The trace entry of a TortoiseSVN invocation. -/
def tortInv (working_dir : String) : Invocation :=
  ⟨SVMMergeWithTortoise.tortoiseCmd working_dir, none⟩

/-- Whether an invocation is exactly the recursive `svn revert` command. -/
def isRevertInv (inv : Invocation) : Bool :=
  match inv.command with
  | ["svn", "revert", "-R", "."] => true
  | _ => false

/-- Number of `svn revert` invocations in a trace. -/
def countRevert (t : List Invocation) : Nat :=
  (t.filter isRevertInv).length

/-- Whether an invocation is an `svn merge`. -/
def isMergeInv (inv : Invocation) : Bool :=
  match inv.command with
  | "svn" :: "merge" :: _ => true
  | _ => false

/-- The subsequence of `svn merge` invocations of a trace, in order. -/
def mergeInvs (t : List Invocation) : List Invocation :=
  t.filter isMergeInv

/-- Whether an invocation launches the TortoiseSVN executable. -/
def isTortInv (inv : Invocation) : Bool :=
  match inv.command with
  | "TortoiseProc.exe" :: _ => true
  | _ => false

/-- Number of TortoiseSVN invocations in a trace. -/
def countTortoise (t : List Invocation) : Nat :=
  (t.filter isTortInv).length

/-- Whether the k-th `svn` invocation of the environment succeeds. -/
def svnOk (env : Env) (k : Nat) : Bool :=
  (env.svn k).returncode == 0

/-- Whether the first `n` `svn` invocations of the environment all succeed. -/
def allOk (env : Env) (n : Nat) : Bool :=
  (List.range n).all (svnOk env)

/-- Number of failures among the `n` `svn` invocations starting at index `c`. -/
def failCount (env : Env) : Nat → Nat → Nat
  | _, 0 => 0
  | c, n + 1 => (if svnOk env c then 0 else 1) + failCount env (c + 1) n

/-- Whether the interactive revision loop, started at `svn` index `c` and
TortoiseSVN index `t`, processes every revision: each merge either succeeds
or is rescued by a TortoiseSVN invocation that exits 0. -/
def loopSucceeds (env : Env) : Nat → Nat → List Rev → Bool
  | _, _, [] => true
  | c, t, _ :: rest =>
    if svnOk env c then loopSucceeds env (c + 1) t rest
    else
      match env.tortoise t with
      | .notFound => false
      | .exited code =>
        if code = 0 then loopSucceeds env (c + 1) (t + 1) rest else false

/-- Merge-and-handoff trace of a full interactive loop in which every
TortoiseSVN invocation exits 0: one merge invocation per revision in list
order, each failed merge followed by a TortoiseSVN invocation. -/
def rescueTrace (env : Env) (source_branch working_dir : String) :
    Nat → List Rev → List Invocation
  | _, [] => []
  | c, r :: rest =>
    if svnOk env c then
      mergeInv r.toStr source_branch working_dir ::
        rescueTrace env source_branch working_dir (c + 1) rest
    else
      mergeInv r.toStr source_branch working_dir :: tortInv working_dir ::
        rescueTrace env source_branch working_dir (c + 1) rest

/-- The forward trace of a strict run: switch, update, then one merge per
revision in list order. -/
def strictTrace (target_branch working_dir source_branch : String) (revs : List Rev) :
    List Invocation :=
  switchInv target_branch working_dir :: updateInv working_dir ::
    revs.map (fun r => mergeInv r.toStr source_branch working_dir)

/-! ## Basic lemmas -/

theorem run_command_of_ok (command : List String) (out : CmdOutput)
    (h : out.returncode = 0) : run_command command out = Except.ok out.stdout.trim := by
  simp [run_command, h]

theorem run_command_of_err (command : List String) (out : CmdOutput)
    (h : ¬ out.returncode = 0) :
    run_command command out = Except.error (error_message command out) := by
  simp [run_command, h]

theorem svnOk_true_iff (env : Env) (k : Nat) :
    svnOk env k = true ↔ (env.svn k).returncode = 0 := by
  simp [svnOk]

theorem svnOk_false_iff (env : Env) (k : Nat) :
    svnOk env k = false ↔ ¬ (env.svn k).returncode = 0 := by
  simp [svnOk]

theorem svn_switch_eq (env : Env) (b wd : String) (s : RunState) :
    svn_switch env b wd s =
      (run_command (switchCmd b) (env.svn s.svnCalls),
       ⟨s.svnCalls + 1, s.tortCalls, s.trace ++ [switchInv b wd]⟩) := rfl

theorem svn_update_eq (env : Env) (wd : String) (s : RunState) :
    svn_update env wd s =
      (run_command updateCmd (env.svn s.svnCalls),
       ⟨s.svnCalls + 1, s.tortCalls, s.trace ++ [updateInv wd]⟩) := rfl

theorem svn_revert_eq (env : Env) (wd : String) (s : RunState) :
    svn_revert env wd s =
      (run_command revertCmd (env.svn s.svnCalls),
       ⟨s.svnCalls + 1, s.tortCalls, s.trace ++ [revertInv wd]⟩) := rfl

theorem strict_svn_merge_eq (env : Env) (rev sb wd : String) (s : RunState) :
    SVNMerge.svn_merge env rev sb wd s =
      (run_command (mergeCmd rev sb) (env.svn s.svnCalls),
       ⟨s.svnCalls + 1, s.tortCalls, s.trace ++ [mergeInv rev sb wd]⟩) := rfl

/-! ## Strict variant: loop characterization -/

theorem strict_loop_all_ok (env : Env) (sb wd : String) (revs : List Rev) :
    ∀ (s : RunState),
      (∀ k, k < revs.length → svnOk env (s.svnCalls + k) = true) →
      SVNMerge.merge_loop env sb wd revs s =
        (.ok, ⟨s.svnCalls + revs.length, s.tortCalls,
               s.trace ++ revs.map (fun r => mergeInv r.toStr sb wd)⟩) := by
  induction revs with
  | nil => intro s _; simp [SVNMerge.merge_loop]
  | cons r rest ih =>
    intro s h
    have h0 : (env.svn s.svnCalls).returncode = 0 := by
      have h' := h 0 (Nat.succ_pos _)
      rw [Nat.add_zero] at h'
      exact (svnOk_true_iff env s.svnCalls).mp h'
    have ih' := ih ⟨s.svnCalls + 1, s.tortCalls, s.trace ++ [mergeInv r.toStr sb wd]⟩
      (fun k hk => by
        have h'' := h (k + 1) (Nat.succ_lt_succ hk)
        have e : s.svnCalls + 1 + k = s.svnCalls + (k + 1) := by omega
        rw [e]; exact h'')
    simp only [SVNMerge.merge_loop, strict_svn_merge_eq,
      run_command_of_ok _ _ h0]
    rw [ih']
    simp [List.append_assoc, Nat.add_assoc, Nat.add_comm 1 rest.length]

theorem strict_loop_fail (env : Env) (sb wd : String) (revs : List Rev) :
    ∀ (m : Nat) (s : RunState), m < revs.length →
      (∀ k, k < m → svnOk env (s.svnCalls + k) = true) →
      svnOk env (s.svnCalls + m) = false →
      ∃ res, SVNMerge.merge_loop env sb wd revs s =
          (res, ⟨s.svnCalls + m + 2, s.tortCalls,
                 s.trace ++ (revs.take (m + 1)).map (fun r => mergeInv r.toStr sb wd)
                   ++ [revertInv wd]⟩) ∧
        (svnOk env (s.svnCalls + m + 1) = true → res = SVNMerge.LoopResult.exited 1) ∧
        (svnOk env (s.svnCalls + m + 1) = false →
          res = SVNMerge.LoopResult.raised (error_message revertCmd (env.svn (s.svnCalls + m + 1)))) := by
  induction revs with
  | nil => intro m s hm _ _; exact absurd hm (Nat.not_lt_zero m)
  | cons r rest ih =>
    intro m s hm hbefore hfail
    match m with
    | 0 =>
      rw [Nat.add_zero] at hfail
      have h0 : ¬ (env.svn s.svnCalls).returncode = 0 := (svnOk_false_iff env _).mp hfail
      by_cases h1 : (env.svn (s.svnCalls + 1)).returncode = 0
      · refine ⟨SVNMerge.LoopResult.exited 1, ?_, fun _ => rfl, fun hc => ?_⟩
        · simp only [SVNMerge.merge_loop, strict_svn_merge_eq, run_command_of_err _ _ h0,
            svn_revert_eq, run_command_of_ok _ _ h1]
          simp [List.append_assoc]
        · exact absurd ((svnOk_false_iff env _).mp hc) (fun hcon => hcon h1)
      · refine ⟨SVNMerge.LoopResult.raised (error_message revertCmd (env.svn (s.svnCalls + 1))),
          ?_, fun hc => ?_, fun _ => rfl⟩
        · simp only [SVNMerge.merge_loop, strict_svn_merge_eq, run_command_of_err _ _ h0,
            svn_revert_eq, run_command_of_err _ _ h1]
          simp [List.append_assoc]
        · exact absurd ((svnOk_true_iff env _).mp hc) h1
    | m' + 1 =>
      have h0 : (env.svn s.svnCalls).returncode = 0 := by
        have h' := hbefore 0 (Nat.succ_pos _)
        rw [Nat.add_zero] at h'
        exact (svnOk_true_iff env _).mp h'
      have harith : ∀ k, s.svnCalls + 1 + k = s.svnCalls + (k + 1) := fun k => by omega
      obtain ⟨res, heq, hok, herr⟩ := ih m'
        ⟨s.svnCalls + 1, s.tortCalls, s.trace ++ [mergeInv r.toStr sb wd]⟩
        (Nat.lt_of_succ_lt_succ hm)
        (fun k hk => by
          have h'' := hbefore (k + 1) (Nat.succ_lt_succ hk)
          rw [harith k]; exact h'')
        (by rw [harith m']; exact hfail)
      dsimp only at heq hok herr
      have e : s.svnCalls + 1 + m' + 1 = s.svnCalls + (m' + 1) + 1 := by omega
      rw [e] at hok herr
      refine ⟨res, ?_, hok, herr⟩
      simp only [SVNMerge.merge_loop, strict_svn_merge_eq, run_command_of_ok _ _ h0]
      rw [heq]
      simp [List.take_succ_cons, List.map_cons, Prod.mk.injEq, RunState.mk.injEq,
        List.append_assoc]
      omega

/-! ## Trace counting lemmas -/

@[simp] theorem isRevertInv_switchInv (tb wd : String) : isRevertInv (switchInv tb wd) = false := rfl

@[simp] theorem isRevertInv_updateInv (wd : String) : isRevertInv (updateInv wd) = false := rfl

@[simp] theorem isRevertInv_revertInv (wd : String) : isRevertInv (revertInv wd) = true := rfl

@[simp] theorem isRevertInv_mergeInv (rev sb wd : String) : isRevertInv (mergeInv rev sb wd) = false := rfl

@[simp] theorem isRevertInv_tortInv (wd : String) : isRevertInv (tortInv wd) = false := rfl

@[simp] theorem isMergeInv_switchInv (tb wd : String) : isMergeInv (switchInv tb wd) = false := rfl

@[simp] theorem isMergeInv_updateInv (wd : String) : isMergeInv (updateInv wd) = false := rfl

@[simp] theorem isMergeInv_revertInv (wd : String) : isMergeInv (revertInv wd) = false := rfl

@[simp] theorem isMergeInv_mergeInv (rev sb wd : String) : isMergeInv (mergeInv rev sb wd) = true := rfl

@[simp] theorem isMergeInv_tortInv (wd : String) : isMergeInv (tortInv wd) = false := rfl

@[simp] theorem isTortInv_switchInv (tb wd : String) : isTortInv (switchInv tb wd) = false := rfl

@[simp] theorem isTortInv_updateInv (wd : String) : isTortInv (updateInv wd) = false := rfl

@[simp] theorem isTortInv_revertInv (wd : String) : isTortInv (revertInv wd) = false := rfl

@[simp] theorem isTortInv_mergeInv (rev sb wd : String) : isTortInv (mergeInv rev sb wd) = false := rfl

@[simp] theorem isTortInv_tortInv (wd : String) : isTortInv (tortInv wd) = true := rfl

@[simp] theorem countRevert_nil : countRevert [] = 0 := rfl

@[simp] theorem countRevert_append (a b : List Invocation) :
    countRevert (a ++ b) = countRevert a + countRevert b := by
  simp [countRevert, List.filter_append]

theorem countRevert_cons (x : Invocation) (t : List Invocation) :
    countRevert (x :: t) = (if isRevertInv x then 1 else 0) + countRevert t := by
  simp only [countRevert, List.filter_cons]
  split <;> (simp; try omega)

@[simp] theorem mergeInvs_nil : mergeInvs [] = [] := rfl

@[simp] theorem mergeInvs_append (a b : List Invocation) :
    mergeInvs (a ++ b) = mergeInvs a ++ mergeInvs b := by
  simp [mergeInvs, List.filter_append]

theorem mergeInvs_cons (x : Invocation) (t : List Invocation) :
    mergeInvs (x :: t) = if isMergeInv x then x :: mergeInvs t else mergeInvs t := by
  simp only [mergeInvs, List.filter_cons]

@[simp] theorem countTortoise_nil : countTortoise [] = 0 := rfl

@[simp] theorem countTortoise_append (a b : List Invocation) :
    countTortoise (a ++ b) = countTortoise a + countTortoise b := by
  simp [countTortoise, List.filter_append]

theorem countTortoise_cons (x : Invocation) (t : List Invocation) :
    countTortoise (x :: t) = (if isTortInv x then 1 else 0) + countTortoise t := by
  simp only [countTortoise, List.filter_cons]
  split <;> (simp; try omega)

theorem countRevert_mergeMap (revs : List Rev) (sb wd : String) :
    countRevert (revs.map (fun r => mergeInv r.toStr sb wd)) = 0 := by
  induction revs with
  | nil => rfl
  | cons r t ih => simp [countRevert_cons, ih]

theorem mergeInvs_mergeMap (revs : List Rev) (sb wd : String) :
    mergeInvs (revs.map (fun r => mergeInv r.toStr sb wd)) =
      revs.map (fun r => mergeInv r.toStr sb wd) := by
  induction revs with
  | nil => rfl
  | cons r t ih => simp [mergeInvs_cons, ih]

theorem countTortoise_mergeMap (revs : List Rev) (sb wd : String) :
    countTortoise (revs.map (fun r => mergeInv r.toStr sb wd)) = 0 := by
  induction revs with
  | nil => rfl
  | cons r t ih => simp [countTortoise_cons, ih]

/-! ## Strict variant: main characterization -/

theorem countRevert_take_mergeMap (n : Nat) (revs : List Rev) (sb wd : String) :
    countRevert (List.take n (revs.map (fun r => mergeInv r.toStr sb wd))) = 0 := by
  rw [← List.map_take]
  exact countRevert_mergeMap _ _ _

theorem mergeInvs_take_mergeMap (n : Nat) (revs : List Rev) (sb wd : String) :
    mergeInvs (List.take n (revs.map (fun r => mergeInv r.toStr sb wd))) =
      (revs.take n).map (fun r => mergeInv r.toStr sb wd) := by
  rw [← List.map_take]
  exact mergeInvs_mergeMap _ _ _

theorem countTortoise_take_mergeMap (n : Nat) (revs : List Rev) (sb wd : String) :
    countTortoise (List.take n (revs.map (fun r => mergeInv r.toStr sb wd))) = 0 := by
  rw [← List.map_take]
  exact countTortoise_mergeMap _ _ _

theorem allOk_imp (env : Env) (n : Nat) (h : allOk env n = true) :
    ∀ k, k < n → svnOk env k = true := by
  intro k hk
  have := List.all_eq_true.mp h
  exact this k (List.mem_range.mpr hk)

theorem exists_first_fail (env : Env) (n : Nat) (h : ¬ allOk env n = true) :
    ∃ j, j < n ∧ svnOk env j = false ∧ ∀ k, k < j → svnOk env k = true := by
  have h' : ∃ x, x < n ∧ ¬ svnOk env x = true := by
    by_contra hc
    push_neg at hc
    exact h (List.all_eq_true.mpr (fun k hk => hc k (List.mem_range.mp hk)))
  obtain ⟨x, hxn, hx⟩ := h'
  have hex : ∃ k, svnOk env k = false := ⟨x, Bool.eq_false_iff.mpr hx⟩
  refine ⟨Nat.find hex, ?_, Nat.find_spec hex, ?_⟩
  · exact Nat.lt_of_le_of_lt (Nat.find_min' hex (Bool.eq_false_iff.mpr hx)) hxn
  · intro k hk
    have := Nat.find_min hex hk
    exact eq_true_of_ne_false this

theorem strict_main_all_ok (env : Env) (cfg : Config) (h : configValid cfg = true)
    (hok : ∀ k, k < 2 + (cfg.revisions.getD []).length → svnOk env k = true) :
    SVNMerge.main env cfg =
      (0, ⟨2 + (cfg.revisions.getD []).length, 0,
           strictTrace (cfg.target_branch.getD "") (cfg.working_dir.getD "")
             (cfg.source_branch.getD "") (cfg.revisions.getD [])⟩) := by
  have h0 : (env.svn 0).returncode = 0 := (svnOk_true_iff env 0).mp (hok 0 (by omega))
  have h1 : (env.svn 1).returncode = 0 := (svnOk_true_iff env 1).mp (hok 1 (by omega))
  have hloop := strict_loop_all_ok env (cfg.source_branch.getD "") (cfg.working_dir.getD "")
    (cfg.revisions.getD [])
    ⟨2, 0, [switchInv (cfg.target_branch.getD "") (cfg.working_dir.getD ""),
            updateInv (cfg.working_dir.getD "")]⟩
    (fun k hk => hok (2 + k) (by omega))
  dsimp only at hloop
  have e2 : (0 : Nat) + 1 + 1 = 2 := rfl
  simp only [SVNMerge.main, h, if_true, svn_switch_eq, initState, run_command_of_ok _ _ h0,
    svn_update_eq, run_command_of_ok _ _ h1, List.nil_append, List.singleton_append, e2]
  rw [hloop]
  simp [strictTrace]

theorem strict_main_loop_eq (env : Env) (cfg : Config) (h : configValid cfg = true)
    (h0 : svnOk env 0 = true) (h1 : svnOk env 1 = true) :
    SVNMerge.main env cfg =
      (match SVNMerge.merge_loop env (cfg.source_branch.getD "") (cfg.working_dir.getD "")
          (cfg.revisions.getD [])
          ⟨2, 0, [switchInv (cfg.target_branch.getD "") (cfg.working_dir.getD ""),
                  updateInv (cfg.working_dir.getD "")]⟩ with
       | (SVNMerge.LoopResult.ok, s3) => (0, s3)
       | (SVNMerge.LoopResult.exited c, s3) => (c, s3)
       | (SVNMerge.LoopResult.raised _, s3) =>
          SVNMerge.outer_handler env (cfg.working_dir.getD "") s3) := by
  have h0' : (env.svn 0).returncode = 0 := (svnOk_true_iff env 0).mp h0
  have h1' : (env.svn 1).returncode = 0 := (svnOk_true_iff env 1).mp h1
  have e2 : (0 : Nat) + 1 + 1 = 2 := rfl
  simp only [SVNMerge.main, h, if_true, svn_switch_eq, initState, run_command_of_ok _ _ h0',
    svn_update_eq, run_command_of_ok _ _ h1', List.nil_append, List.singleton_append, e2]

theorem strict_main_fail_switch (env : Env) (cfg : Config) (h : configValid cfg = true)
    (hfail : svnOk env 0 = false) :
    SVNMerge.main env cfg =
      (1, ⟨2, 0, [switchInv (cfg.target_branch.getD "") (cfg.working_dir.getD ""),
                  revertInv (cfg.working_dir.getD "")]⟩) := by
  have h0 : ¬ (env.svn 0).returncode = 0 := (svnOk_false_iff env 0).mp hfail
  simp only [SVNMerge.main, h, if_true, svn_switch_eq, initState, run_command_of_err _ _ h0,
    List.nil_append]
  simp [SVNMerge.outer_handler, svn_revert_eq]

theorem strict_main_fail_update (env : Env) (cfg : Config) (h : configValid cfg = true)
    (h0 : svnOk env 0 = true) (hfail : svnOk env 1 = false) :
    SVNMerge.main env cfg =
      (1, ⟨3, 0, [switchInv (cfg.target_branch.getD "") (cfg.working_dir.getD ""),
                  updateInv (cfg.working_dir.getD ""),
                  revertInv (cfg.working_dir.getD "")]⟩) := by
  have h0' : (env.svn 0).returncode = 0 := (svnOk_true_iff env 0).mp h0
  have h1' : ¬ (env.svn 1).returncode = 0 := (svnOk_false_iff env 1).mp hfail
  simp only [SVNMerge.main, h, if_true, svn_switch_eq, initState, run_command_of_ok _ _ h0',
    svn_update_eq, run_command_of_err _ _ h1', List.nil_append, List.singleton_append]
  simp [SVNMerge.outer_handler, svn_revert_eq]

theorem strict_main_fail_merge (env : Env) (cfg : Config) (h : configValid cfg = true)
    (m : Nat) (hm : m < (cfg.revisions.getD []).length)
    (hbefore : ∀ k, k < 2 + m → svnOk env k = true)
    (hfail : svnOk env (2 + m) = false) :
    (svnOk env (2 + m + 1) = true →
      SVNMerge.main env cfg =
        (1, ⟨2 + m + 2, 0,
             [switchInv (cfg.target_branch.getD "") (cfg.working_dir.getD ""),
              updateInv (cfg.working_dir.getD "")] ++
               ((cfg.revisions.getD []).take (m + 1)).map
                 (fun r => mergeInv r.toStr (cfg.source_branch.getD "") (cfg.working_dir.getD ""))
               ++ [revertInv (cfg.working_dir.getD "")]⟩)) ∧
    (svnOk env (2 + m + 1) = false →
      SVNMerge.main env cfg =
        (1, ⟨2 + m + 3, 0,
             [switchInv (cfg.target_branch.getD "") (cfg.working_dir.getD ""),
              updateInv (cfg.working_dir.getD "")] ++
               ((cfg.revisions.getD []).take (m + 1)).map
                 (fun r => mergeInv r.toStr (cfg.source_branch.getD "") (cfg.working_dir.getD ""))
               ++ [revertInv (cfg.working_dir.getD ""),
                   revertInv (cfg.working_dir.getD "")]⟩)) := by
  have h0 : svnOk env 0 = true := hbefore 0 (by omega)
  have h1 : svnOk env 1 = true := hbefore 1 (by omega)
  obtain ⟨res, heq, hok, herr⟩ := strict_loop_fail env (cfg.source_branch.getD "")
    (cfg.working_dir.getD "") (cfg.revisions.getD []) m
    ⟨2, 0, [switchInv (cfg.target_branch.getD "") (cfg.working_dir.getD ""),
            updateInv (cfg.working_dir.getD "")]⟩
    hm
    (fun k hk => hbefore (2 + k) (by omega))
    (hfail)
  dsimp only at heq hok herr
  rw [strict_main_loop_eq env cfg h h0 h1]
  constructor
  · intro hrev
    rw [hok hrev] at heq
    rw [heq]
  · intro hrev
    rw [herr hrev] at heq
    rw [heq]
    simp [SVNMerge.outer_handler, svn_revert_eq, List.append_assoc]

theorem configValid_mk (sb tb wd : String) (revs : List Rev)
    (hs : sb ≠ "") (ht : tb ≠ "") (hw : wd ≠ "") (hr : revs ≠ []) :
    configValid ⟨some sb, some tb, some wd, some revs⟩ = true := by
  simp [configValid, truthyStr, hs, ht, hw, hr]

theorem configValid_false_main (env : Env) (cfg : Config) (hv : configValid cfg = false) :
    SVNMerge.main env cfg = (1, initState) ∧
    SVMMergeWithTortoise.main env cfg = (1, initState) := by
  constructor <;> simp [SVNMerge.main, SVMMergeWithTortoise.main, hv]

theorem strict_main_exit (env : Env) (cfg : Config) :
    (SVNMerge.main env cfg).1 =
      if configValid cfg && allOk env (2 + (cfg.revisions.getD []).length) then 0 else 1 := by
  by_cases hv : configValid cfg = true
  · by_cases ha : allOk env (2 + (cfg.revisions.getD []).length) = true
    · rw [strict_main_all_ok env cfg hv (allOk_imp _ _ ha)]
      simp [hv, ha]
    · have ha' : allOk env (2 + (cfg.revisions.getD []).length) = false := by
        simpa using ha
      obtain ⟨j, hj, hfail, hbefore⟩ := exists_first_fail env _ ha
      have hres : (SVNMerge.main env cfg).1 = 1 := by
        rcases j with _ | _ | m
        · rw [strict_main_fail_switch env cfg hv hfail]
        · rw [strict_main_fail_update env cfg hv (hbefore 0 (by omega)) hfail]
        · have hm : m < (cfg.revisions.getD []).length := by omega
          have hfail' : svnOk env (2 + m) = false := by
            have e : 2 + m = m + 1 + 1 := by omega
            rw [e]; exact hfail
          obtain ⟨hA, hB⟩ := strict_main_fail_merge env cfg hv m hm
            (fun k hk => hbefore k (by omega)) hfail'
          by_cases hrv : svnOk env (2 + m + 1) = true
          · rw [hA hrv]
          · rw [hB (by simpa using hrv)]
      rw [hres]
      simp [hv, ha']
  · have hv' : configValid cfg = false := by simpa using hv
    rw [(configValid_false_main env cfg hv').1]
    simp [hv']

/-- C2: for every valid plan with at least one revision, if every switch,
update, and merge operation succeeds, the strict run terminates with exit
status 0 and the revert operation is never invoked. -/
theorem C2_all_ok_success_no_revert (env : Env) (sb tb wd : String) (revs : List Rev)
    (hs : sb ≠ "") (ht : tb ≠ "") (hw : wd ≠ "") (hr : revs ≠ [])
    (hok : ∀ k, k < 2 + revs.length → svnOk env k = true) :
    (SVNMerge.main env ⟨some sb, some tb, some wd, some revs⟩).1 = 0 ∧
    countRevert (SVNMerge.main env ⟨some sb, some tb, some wd, some revs⟩).2.trace = 0 := by
  have hv := configValid_mk sb tb wd revs hs ht hw hr
  have hmain := strict_main_all_ok env ⟨some sb, some tb, some wd, some revs⟩ hv
  simp only [Option.getD_some] at hmain
  rw [hmain hok]
  refine ⟨rfl, ?_⟩
  simp [strictTrace, countRevert_cons, countRevert_mergeMap]

/-- Witness for C2 at a concrete two-revision plan in an all-success
environment. -/
theorem C2_all_ok_success_no_revert_witness :
    (SVNMerge.main ⟨fun _ => ⟨0, "", ""⟩, fun _ => ProcOutcome.exited 0⟩
        ⟨some "/branches/feature", some "/trunk", some "/wc",
         some [Rev.int 42, Rev.int 43]⟩).1 = 0 ∧
    countRevert (SVNMerge.main ⟨fun _ => ⟨0, "", ""⟩, fun _ => ProcOutcome.exited 0⟩
        ⟨some "/branches/feature", some "/trunk", some "/wc",
         some [Rev.int 42, Rev.int 43]⟩).2.trace = 0 :=
  C2_all_ok_success_no_revert ⟨fun _ => ⟨0, "", ""⟩, fun _ => ProcOutcome.exited 0⟩
    "/branches/feature" "/trunk" "/wc" [Rev.int 42, Rev.int 43]
    (by decide) (by decide) (by decide) (by decide) (fun k _ => by simp [svnOk])

/-- C5: merges are applied strictly in the literal order of the revisions
sequence — in an all-success run the sequence of `svn merge` invocations in
the trace is exactly the revision list mapped to merge commands, in list
order, with no sorting and no deduplication. -/
theorem C5_literal_order (env : Env) (sb tb wd : String) (revs : List Rev)
    (hs : sb ≠ "") (ht : tb ≠ "") (hw : wd ≠ "") (hr : revs ≠ [])
    (hok : ∀ k, k < 2 + revs.length → svnOk env k = true) :
    mergeInvs (SVNMerge.main env ⟨some sb, some tb, some wd, some revs⟩).2.trace =
      revs.map (fun r => mergeInv r.toStr sb wd) := by
  have hv := configValid_mk sb tb wd revs hs ht hw hr
  have hmain := strict_main_all_ok env ⟨some sb, some tb, some wd, some revs⟩ hv
  simp only [Option.getD_some] at hmain
  rw [hmain hok]
  simp [strictTrace, mergeInvs_cons, mergeInvs_mergeMap]

/-- Witness for C5 at the plan `[105, 101, 103, 101]`: the merges happen in
exactly that literal order (not sorted, duplicate preserved). -/
theorem C5_literal_order_witness :
    mergeInvs (SVNMerge.main ⟨fun _ => ⟨0, "", ""⟩, fun _ => ProcOutcome.exited 0⟩
        ⟨some "/src", some "/tgt", some "/wc",
         some [Rev.int 105, Rev.int 101, Rev.int 103, Rev.int 101]⟩).2.trace =
      [Rev.int 105, Rev.int 101, Rev.int 103, Rev.int 101].map
        (fun r => mergeInv r.toStr "/src" "/wc") :=
  C5_literal_order ⟨fun _ => ⟨0, "", ""⟩, fun _ => ProcOutcome.exited 0⟩
    "/src" "/tgt" "/wc" [Rev.int 105, Rev.int 101, Rev.int 103, Rev.int 101]
    (by decide) (by decide) (by decide) (by decide) (fun k _ => by simp [svnOk])

/-- C4: for every configuration missing `source_branch`, `target_branch`, or
`working_dir`, or whose `revisions` sequence is empty (or absent, defaulting
to empty), both variants terminate with exit status 1 and the trace is empty:
no working-copy-mutating command (switch, update, merge, or revert) is ever
invoked. -/
theorem C4_invalid_config_no_commands (env : Env) (cfg : Config)
    (h : cfg.source_branch = none ∨ cfg.target_branch = none ∨ cfg.working_dir = none ∨
         cfg.revisions.getD [] = []) :
    SVNMerge.main env cfg = (1, initState) ∧
    SVMMergeWithTortoise.main env cfg = (1, initState) ∧
    initState.trace = [] := by
  have hv : configValid cfg = false := by
    rcases h with h | h | h | h <;>
      simp [configValid, truthyStr, h]
  obtain ⟨h1, h2⟩ := configValid_false_main env cfg hv
  exact ⟨h1, h2, rfl⟩

/-- Witness for C4 at a configuration with `source_branch` absent. -/
theorem C4_invalid_config_no_commands_witness :
    SVNMerge.main ⟨fun _ => ⟨0, "", ""⟩, fun _ => ProcOutcome.exited 0⟩
        ⟨none, some "/tgt", some "/wc", some [Rev.int 7]⟩ = (1, initState) ∧
    SVMMergeWithTortoise.main ⟨fun _ => ⟨0, "", ""⟩, fun _ => ProcOutcome.exited 0⟩
        ⟨none, some "/tgt", some "/wc", some [Rev.int 7]⟩ = (1, initState) ∧
    initState.trace = [] :=
  C4_invalid_config_no_commands ⟨fun _ => ⟨0, "", ""⟩, fun _ => ProcOutcome.exited 0⟩
    ⟨none, some "/tgt", some "/wc", some [Rev.int 7]⟩ (Or.inl rfl)

/-- C1, counterexample to the claim as stated: in a run where the merge of
the first revision fails AND the revert invoked by the per-revision handler
also fails, the revert operation is invoked twice, not exactly once (the
outer `except Exception` handler reverts again).  The run still exits 1. -/
theorem C1_counterexample :
    svnOk ⟨fun k => if k < 2 then ⟨0, "", ""⟩ else ⟨1, "out", "err"⟩,
           fun _ => ProcOutcome.exited 0⟩ 2 = false ∧
    (SVNMerge.main ⟨fun k => if k < 2 then ⟨0, "", ""⟩ else ⟨1, "out", "err"⟩,
           fun _ => ProcOutcome.exited 0⟩
        ⟨some "/src", some "/tgt", some "/wc", some [Rev.int 42]⟩).1 = 1 ∧
    ¬ countRevert (SVNMerge.main ⟨fun k => if k < 2 then ⟨0, "", ""⟩ else ⟨1, "out", "err"⟩,
           fun _ => ProcOutcome.exited 0⟩
        ⟨some "/src", some "/tgt", some "/wc", some [Rev.int 42]⟩).2.trace = 1 ∧
    countRevert (SVNMerge.main ⟨fun k => if k < 2 then ⟨0, "", ""⟩ else ⟨1, "out", "err"⟩,
           fun _ => ProcOutcome.exited 0⟩
        ⟨some "/src", some "/tgt", some "/wc", some [Rev.int 42]⟩).2.trace = 2 := by
  decide

/-- C1 (amended): in the strict variant, if the first failing operation of
the run is the j-th svn command (switch is command 0, update is command 1,
the merge of revision i is command 2+i), with j within the switch-through-
last-merge range, and the revert triggered by that failure succeeds, then
the revert operation is invoked exactly once, the run exits with failure
status 1, and no merge for any later revision is attempted: the merges in
the trace are exactly those of the first j-1 revisions, in order. -/
theorem C1_first_failure_single_revert (env : Env) (sb tb wd : String) (revs : List Rev)
    (hs : sb ≠ "") (ht : tb ≠ "") (hw : wd ≠ "") (hr : revs ≠ [])
    (j : Nat) (hj : j < 2 + revs.length)
    (hbefore : ∀ k, k < j → svnOk env k = true)
    (hfail : svnOk env j = false)
    (hrev : svnOk env (j + 1) = true) :
    (SVNMerge.main env ⟨some sb, some tb, some wd, some revs⟩).1 = 1 ∧
    countRevert (SVNMerge.main env ⟨some sb, some tb, some wd, some revs⟩).2.trace = 1 ∧
    mergeInvs (SVNMerge.main env ⟨some sb, some tb, some wd, some revs⟩).2.trace =
      (revs.take (j - 1)).map (fun r => mergeInv r.toStr sb wd) := by
  have hv := configValid_mk sb tb wd revs hs ht hw hr
  rcases j with _ | _ | m
  · rw [strict_main_fail_switch env _ hv hfail]
    refine ⟨rfl, ?_, ?_⟩ <;> simp [countRevert_cons, mergeInvs_cons]
  · rw [strict_main_fail_update env _ hv (hbefore 0 (by omega)) hfail]
    refine ⟨rfl, ?_, ?_⟩ <;> simp [countRevert_cons, mergeInvs_cons]
  · have hm : m < revs.length := by omega
    have hm' : m < (Option.getD (Config.mk (some sb) (some tb) (some wd) (some revs)).revisions []).length := by
      simpa using hm
    have hfail' : svnOk env (2 + m) = false := by
      have e : 2 + m = m + 1 + 1 := by omega
      rw [e]; exact hfail
    have hrev' : svnOk env (2 + m + 1) = true := by
      have e : 2 + m + 1 = m + 1 + 1 + 1 := by omega
      rw [e]; exact hrev
    obtain ⟨hA, _⟩ := strict_main_fail_merge env ⟨some sb, some tb, some wd, some revs⟩ hv m hm'
      (fun k hk => hbefore k (by omega)) hfail'
    rw [hA hrev']
    refine ⟨rfl, ?_, ?_⟩
    · simp [countRevert_cons, countRevert_mergeMap, countRevert_take_mergeMap]
    · simp [mergeInvs_cons, mergeInvs_append, mergeInvs_mergeMap, mergeInvs_take_mergeMap]

/-- Witness for C1 (amended): two-revision plan, merge of the first revision
(command 2) fails, the revert succeeds; exit 1, one revert, only the failing
first merge was attempted. -/
theorem C1_first_failure_single_revert_witness :
    (SVNMerge.main ⟨fun k => if k = 2 then ⟨1, "", ""⟩ else ⟨0, "", ""⟩,
        fun _ => ProcOutcome.exited 0⟩
        ⟨some "/src", some "/tgt", some "/wc", some [Rev.int 5, Rev.int 6]⟩).1 = 1 ∧
    countRevert (SVNMerge.main ⟨fun k => if k = 2 then ⟨1, "", ""⟩ else ⟨0, "", ""⟩,
        fun _ => ProcOutcome.exited 0⟩
        ⟨some "/src", some "/tgt", some "/wc", some [Rev.int 5, Rev.int 6]⟩).2.trace = 1 ∧
    mergeInvs (SVNMerge.main ⟨fun k => if k = 2 then ⟨1, "", ""⟩ else ⟨0, "", ""⟩,
        fun _ => ProcOutcome.exited 0⟩
        ⟨some "/src", some "/tgt", some "/wc", some [Rev.int 5, Rev.int 6]⟩).2.trace =
      ([Rev.int 5, Rev.int 6].take (2 - 1)).map (fun r => mergeInv r.toStr "/src" "/wc") :=
  C1_first_failure_single_revert ⟨fun k => if k = 2 then ⟨1, "", ""⟩ else ⟨0, "", ""⟩,
      fun _ => ProcOutcome.exited 0⟩
    "/src" "/tgt" "/wc" [Rev.int 5, Rev.int 6]
    (by decide) (by decide) (by decide) (by decide) 2 (by decide)
    (by decide) (by decide) (by decide)

/-- C9: in the strict variant, when the merge of revision m fails, the
per-revision handler reverts; if that revert itself fails, the outer handler
invokes the revert a second time before the process exits 1 — so over all
revert outcomes the revert count is 1 exactly when the first revert
invocation succeeds, and 2 when it fails. -/
theorem C9_second_revert_on_revert_failure (env : Env) (sb tb wd : String) (revs : List Rev)
    (hs : sb ≠ "") (ht : tb ≠ "") (hw : wd ≠ "") (hr : revs ≠ [])
    (m : Nat) (hm : m < revs.length)
    (hbefore : ∀ k, k < 2 + m → svnOk env k = true)
    (hfail : svnOk env (2 + m) = false) :
    (SVNMerge.main env ⟨some sb, some tb, some wd, some revs⟩).1 = 1 ∧
    countRevert (SVNMerge.main env ⟨some sb, some tb, some wd, some revs⟩).2.trace =
      (if svnOk env (2 + m + 1) then 1 else 2) := by
  have hv := configValid_mk sb tb wd revs hs ht hw hr
  have hm' : m < (Option.getD (Config.mk (some sb) (some tb) (some wd) (some revs)).revisions []).length := by
    simpa using hm
  obtain ⟨hA, hB⟩ := strict_main_fail_merge env ⟨some sb, some tb, some wd, some revs⟩ hv m hm'
    hbefore hfail
  by_cases hrv : svnOk env (2 + m + 1) = true
  · rw [hA hrv, hrv]
    refine ⟨rfl, ?_⟩
    simp [countRevert_cons, countRevert_mergeMap, countRevert_take_mergeMap]
  · have hrv' : svnOk env (2 + m + 1) = false := by simpa using hrv
    rw [hB hrv', hrv']
    refine ⟨rfl, ?_⟩
    simp [countRevert_cons, countRevert_mergeMap, countRevert_take_mergeMap]

/-- Witness for C9: single-revision plan whose merge (command 2) fails and
whose reverts (commands 3 and 4) also fail: the revert is invoked twice. -/
theorem C9_second_revert_on_revert_failure_witness :
    (SVNMerge.main ⟨fun k => if k < 2 then ⟨0, "", ""⟩ else ⟨1, "", ""⟩,
        fun _ => ProcOutcome.exited 0⟩
        ⟨some "/src", some "/tgt", some "/wc", some [Rev.int 9]⟩).1 = 1 ∧
    countRevert (SVNMerge.main ⟨fun k => if k < 2 then ⟨0, "", ""⟩ else ⟨1, "", ""⟩,
        fun _ => ProcOutcome.exited 0⟩
        ⟨some "/src", some "/tgt", some "/wc", some [Rev.int 9]⟩).2.trace =
      (if svnOk ⟨fun k => if k < 2 then ⟨0, "", ""⟩ else ⟨1, "", ""⟩,
          fun _ => ProcOutcome.exited 0⟩ (2 + 0 + 1) then 1 else 2) :=
  C9_second_revert_on_revert_failure ⟨fun k => if k < 2 then ⟨0, "", ""⟩ else ⟨1, "", ""⟩,
      fun _ => ProcOutcome.exited 0⟩
    "/src" "/tgt" "/wc" [Rev.int 9]
    (by decide) (by decide) (by decide) (by decide) 0 (by decide)
    (by decide) (by decide)

/-! ## Interactive variant: characterization -/

theorem existWithError_state (env : Env) (wd : String) (s : RunState) :
    (SVMMergeWithTortoise.existWithError env wd s).2 =
      ⟨s.svnCalls + 1, s.tortCalls, s.trace ++ [revertInv wd]⟩ := by
  rcases hrc : run_command revertCmd (env.svn s.svnCalls) with e | v <;>
    simp [SVMMergeWithTortoise.existWithError, svn_revert_eq, hrc]

theorem existWithError_of_ok (env : Env) (wd : String) (s : RunState)
    (h : svnOk env s.svnCalls = true) :
    SVMMergeWithTortoise.existWithError env wd s =
      (.exited 1, ⟨s.svnCalls + 1, s.tortCalls, s.trace ++ [revertInv wd]⟩) := by
  have h' : (env.svn s.svnCalls).returncode = 0 := (svnOk_true_iff env _).mp h
  simp [SVMMergeWithTortoise.existWithError, svn_revert_eq, run_command_of_ok _ _ h']

theorem existWithError_of_err (env : Env) (wd : String) (s : RunState)
    (h : svnOk env s.svnCalls = false) :
    SVMMergeWithTortoise.existWithError env wd s =
      (.raised (error_message revertCmd (env.svn s.svnCalls)),
       ⟨s.svnCalls + 1, s.tortCalls, s.trace ++ [revertInv wd]⟩) := by
  have h' : ¬ (env.svn s.svnCalls).returncode = 0 := (svnOk_false_iff env _).mp h
  simp [SVMMergeWithTortoise.existWithError, svn_revert_eq, run_command_of_err _ _ h']

theorem tort_resolve_rescue (env : Env) (wd : String) (s : RunState)
    (h : env.tortoise s.tortCalls = ProcOutcome.exited 0) :
    SVMMergeWithTortoise.svn_resolve_with_tortoise env wd s =
      (.ok, ⟨s.svnCalls, s.tortCalls + 1, s.trace ++ [tortInv wd]⟩) := by
  simp [SVMMergeWithTortoise.svn_resolve_with_tortoise, h, tortInv]

theorem tort_resolve_fail (env : Env) (wd : String) (s : RunState)
    (h : env.tortoise s.tortCalls = ProcOutcome.notFound ∨
         ∃ c, env.tortoise s.tortCalls = ProcOutcome.exited c ∧ c ≠ 0) :
    SVMMergeWithTortoise.svn_resolve_with_tortoise env wd s =
      SVMMergeWithTortoise.existWithError env wd
        ⟨s.svnCalls, s.tortCalls + 1, s.trace ++ [tortInv wd]⟩ := by
  rcases h with h | ⟨c, h, hc⟩
  · simp [SVMMergeWithTortoise.svn_resolve_with_tortoise, h, tortInv]
  · simp [SVMMergeWithTortoise.svn_resolve_with_tortoise, h, hc, tortInv]

theorem tort_svn_merge_ok (env : Env) (rev sb wd : String) (s : RunState)
    (h : svnOk env s.svnCalls = true) :
    SVMMergeWithTortoise.svn_merge env rev sb wd s =
      (.ok, ⟨s.svnCalls + 1, s.tortCalls, s.trace ++ [mergeInv rev sb wd]⟩) := by
  have h' : (env.svn s.svnCalls).returncode = 0 := (svnOk_true_iff env _).mp h
  simp [SVMMergeWithTortoise.svn_merge, exec_svn, run_command_of_ok _ _ h', mergeInv]

theorem tort_svn_merge_conflict (env : Env) (rev sb wd : String) (s : RunState)
    (h : svnOk env s.svnCalls = false) :
    SVMMergeWithTortoise.svn_merge env rev sb wd s =
      SVMMergeWithTortoise.svn_resolve_with_tortoise env wd
        ⟨s.svnCalls + 1, s.tortCalls, s.trace ++ [mergeInv rev sb wd]⟩ := by
  have h' : ¬ (env.svn s.svnCalls).returncode = 0 := (svnOk_false_iff env _).mp h
  simp [SVMMergeWithTortoise.svn_merge, exec_svn, run_command_of_err _ _ h', mergeInv]

theorem tort_loop_all_rescued (env : Env) (sb wd : String)
    (htort : ∀ t, env.tortoise t = ProcOutcome.exited 0) (revs : List Rev) :
    ∀ (s : RunState),
      SVMMergeWithTortoise.merge_loop env sb wd revs s =
        (.ok, ⟨s.svnCalls + revs.length, s.tortCalls + failCount env s.svnCalls revs.length,
               s.trace ++ rescueTrace env sb wd s.svnCalls revs⟩) := by
  induction revs with
  | nil => intro s; simp [SVMMergeWithTortoise.merge_loop, rescueTrace, failCount]
  | cons r rest ih =>
    intro s
    by_cases hc : svnOk env s.svnCalls = true
    · have ih' := ih ⟨s.svnCalls + 1, s.tortCalls, s.trace ++ [mergeInv r.toStr sb wd]⟩
      dsimp only at ih'
      simp only [SVMMergeWithTortoise.merge_loop, tort_svn_merge_ok env _ sb wd s hc]
      rw [ih']
      simp [List.length_cons, failCount, rescueTrace, hc, List.append_assoc]
      try omega
    · have hc' : svnOk env s.svnCalls = false := by simpa using hc
      have ih' := ih ⟨s.svnCalls + 1, s.tortCalls + 1,
        s.trace ++ [mergeInv r.toStr sb wd] ++ [tortInv wd]⟩
      dsimp only at ih'
      simp only [SVMMergeWithTortoise.merge_loop, tort_svn_merge_conflict env _ sb wd s hc',
        tort_resolve_rescue env wd _ (htort _)]
      rw [ih']
      simp [List.length_cons, failCount, rescueTrace, hc', List.append_assoc]
      try omega

theorem countRevert_rescueTrace (env : Env) (sb wd : String) (revs : List Rev) :
    ∀ c, countRevert (rescueTrace env sb wd c revs) = 0 := by
  induction revs with
  | nil => intro c; simp [rescueTrace]
  | cons r rest ih =>
    intro c
    by_cases hc : svnOk env c = true <;>
      simp [rescueTrace, hc, countRevert_cons, ih (c + 1)]

theorem mergeInvs_rescueTrace (env : Env) (sb wd : String) (revs : List Rev) :
    ∀ c, mergeInvs (rescueTrace env sb wd c revs) =
      revs.map (fun r => mergeInv r.toStr sb wd) := by
  induction revs with
  | nil => intro c; simp [rescueTrace]
  | cons r rest ih =>
    intro c
    by_cases hc : svnOk env c = true <;>
      simp [rescueTrace, hc, mergeInvs_cons, ih (c + 1)]

theorem countTortoise_rescueTrace (env : Env) (sb wd : String) (revs : List Rev) :
    ∀ c, countTortoise (rescueTrace env sb wd c revs) = failCount env c revs.length := by
  induction revs with
  | nil => intro c; simp [rescueTrace, failCount]
  | cons r rest ih =>
    intro c
    by_cases hc : svnOk env c = true <;>
      simp [rescueTrace, failCount, hc, countTortoise_cons, ih (c + 1)]

theorem existWithError_cases (env : Env) (wd : String) (s : RunState) :
    (SVMMergeWithTortoise.existWithError env wd s).1 = SVMMergeWithTortoise.PyResult.exited 1 ∨
    ∃ e, (SVMMergeWithTortoise.existWithError env wd s).1 =
      SVMMergeWithTortoise.PyResult.raised e := by
  by_cases hre : svnOk env s.svnCalls = true
  · rw [existWithError_of_ok env wd s hre]
    exact Or.inl rfl
  · rw [existWithError_of_err env wd s (by simpa using hre)]
    exact Or.inr ⟨_, rfl⟩

theorem tort_loop_fail (env : Env) (sb wd : String) (revs : List Rev) :
    ∀ (m : Nat) (s : RunState), m < revs.length →
      (∀ k, k < m → svnOk env (s.svnCalls + k) = true) →
      svnOk env (s.svnCalls + m) = false →
      (env.tortoise s.tortCalls = ProcOutcome.notFound ∨
       ∃ c, env.tortoise s.tortCalls = ProcOutcome.exited c ∧ c ≠ 0) →
      svnOk env (s.svnCalls + m + 1) = true →
      SVMMergeWithTortoise.merge_loop env sb wd revs s =
        (.exited 1, ⟨s.svnCalls + m + 2, s.tortCalls + 1,
          s.trace ++ (revs.take (m + 1)).map (fun r => mergeInv r.toStr sb wd)
            ++ [tortInv wd, revertInv wd]⟩) := by
  induction revs with
  | nil => intro m s hm _ _ _ _; exact absurd hm (Nat.not_lt_zero m)
  | cons r rest ih =>
    intro m s hm hbefore hfail htort hrev
    match m with
    | 0 =>
      rw [Nat.add_zero] at hfail hrev
      have hres := tort_resolve_fail env wd
        ⟨s.svnCalls + 1, s.tortCalls, s.trace ++ [mergeInv r.toStr sb wd]⟩ htort
      have hEW := existWithError_of_ok env wd
        ⟨s.svnCalls + 1, s.tortCalls + 1,
         s.trace ++ [mergeInv r.toStr sb wd] ++ [tortInv wd]⟩ hrev
      dsimp only at hres hEW
      simp only [SVMMergeWithTortoise.merge_loop,
        tort_svn_merge_conflict env _ sb wd s hfail, hres, hEW]
      simp [List.append_assoc]
    | m' + 1 =>
      have h0 : svnOk env s.svnCalls = true := by
        have h' := hbefore 0 (Nat.succ_pos _)
        rwa [Nat.add_zero] at h'
      have harith : ∀ k, s.svnCalls + 1 + k = s.svnCalls + (k + 1) := fun k => by omega
      have ih' := ih m' ⟨s.svnCalls + 1, s.tortCalls, s.trace ++ [mergeInv r.toStr sb wd]⟩
        (Nat.lt_of_succ_lt_succ hm)
        (fun k hk => by
          have h'' := hbefore (k + 1) (Nat.succ_lt_succ hk)
          rw [harith k]; exact h'')
        (by rw [harith m']; exact hfail)
        (htort)
        (by
          show svnOk env (s.svnCalls + 1 + m' + 1) = true
          have e : s.svnCalls + 1 + m' + 1 = s.svnCalls + (m' + 1) + 1 := by omega
          rw [e]; exact hrev)
      dsimp only at ih'
      simp only [SVMMergeWithTortoise.merge_loop, tort_svn_merge_ok env _ sb wd s h0]
      rw [ih']
      simp [List.take_succ_cons, List.map_cons, List.append_assoc]
      omega

theorem tort_loop_ok_of (env : Env) (sb wd : String) (revs : List Rev) :
    ∀ (s : RunState), loopSucceeds env s.svnCalls s.tortCalls revs = true →
      (SVMMergeWithTortoise.merge_loop env sb wd revs s).1 =
        SVMMergeWithTortoise.PyResult.ok := by
  induction revs with
  | nil => intro s _; rfl
  | cons r rest ih =>
    intro s hls
    by_cases hc : svnOk env s.svnCalls = true
    · rw [loopSucceeds] at hls
      rw [hc] at hls
      simp only [if_true] at hls
      simp only [SVMMergeWithTortoise.merge_loop, tort_svn_merge_ok env _ sb wd s hc]
      exact ih ⟨s.svnCalls + 1, s.tortCalls, s.trace ++ [mergeInv r.toStr sb wd]⟩ hls
    · have hc' : svnOk env s.svnCalls = false := by simpa using hc
      rw [loopSucceeds] at hls
      rw [hc'] at hls
      simp only [Bool.false_eq_true, if_false] at hls
      rcases htt : env.tortoise s.tortCalls with _ | code
      · rw [htt] at hls; exact absurd hls (by simp)
      · rw [htt] at hls
        dsimp only at hls
        by_cases hc0 : code = 0
        · subst hc0
          simp only [reduceIte] at hls
          have hres := tort_resolve_rescue env wd
            ⟨s.svnCalls + 1, s.tortCalls, s.trace ++ [mergeInv r.toStr sb wd]⟩ htt
          dsimp only at hres
          simp only [SVMMergeWithTortoise.merge_loop,
            tort_svn_merge_conflict env _ sb wd s hc', hres]
          exact ih ⟨s.svnCalls + 1, s.tortCalls + 1,
            s.trace ++ [mergeInv r.toStr sb wd] ++ [tortInv wd]⟩ hls
        · rw [if_neg hc0] at hls
          exact absurd hls (by simp)

theorem tort_loop_not_ok (env : Env) (sb wd : String) (revs : List Rev) :
    ∀ (s : RunState), loopSucceeds env s.svnCalls s.tortCalls revs = false →
      (SVMMergeWithTortoise.merge_loop env sb wd revs s).1 =
          SVMMergeWithTortoise.PyResult.exited 1 ∨
        ∃ e, (SVMMergeWithTortoise.merge_loop env sb wd revs s).1 =
          SVMMergeWithTortoise.PyResult.raised e := by
  induction revs with
  | nil => intro s hls; exact absurd hls (by simp [loopSucceeds])
  | cons r rest ih =>
    intro s hls
    by_cases hc : svnOk env s.svnCalls = true
    · rw [loopSucceeds] at hls
      rw [hc] at hls
      simp only [if_true] at hls
      simp only [SVMMergeWithTortoise.merge_loop, tort_svn_merge_ok env _ sb wd s hc]
      exact ih ⟨s.svnCalls + 1, s.tortCalls, s.trace ++ [mergeInv r.toStr sb wd]⟩ hls
    · have hc' : svnOk env s.svnCalls = false := by simpa using hc
      rw [loopSucceeds] at hls
      rw [hc'] at hls
      simp only [Bool.false_eq_true, if_false] at hls
      have hfall : (env.tortoise s.tortCalls = ProcOutcome.notFound ∨
          ∃ c, env.tortoise s.tortCalls = ProcOutcome.exited c ∧ c ≠ 0) ∨
          (env.tortoise s.tortCalls = ProcOutcome.exited 0 ∧
            loopSucceeds env (s.svnCalls + 1) (s.tortCalls + 1) rest = false) := by
        rcases htt : env.tortoise s.tortCalls with _ | code
        · exact Or.inl (Or.inl rfl)
        · by_cases hc0 : code = 0
          · subst hc0
            rw [htt] at hls
            dsimp only at hls
            simp only [reduceIte] at hls
            exact Or.inr ⟨rfl, hls⟩
          · exact Or.inl (Or.inr ⟨code, rfl, hc0⟩)
      rcases hfall with htort | ⟨htt, hrest⟩
      · have hres := tort_resolve_fail env wd
          ⟨s.svnCalls + 1, s.tortCalls, s.trace ++ [mergeInv r.toStr sb wd]⟩ htort
        dsimp only at hres
        simp only [SVMMergeWithTortoise.merge_loop,
          tort_svn_merge_conflict env _ sb wd s hc', hres]
        rcases hEW : SVMMergeWithTortoise.existWithError env wd
          ⟨s.svnCalls + 1, s.tortCalls + 1,
           s.trace ++ [mergeInv r.toStr sb wd] ++ [tortInv wd]⟩ with ⟨res, st⟩
        have hcases := existWithError_cases env wd
          ⟨s.svnCalls + 1, s.tortCalls + 1,
           s.trace ++ [mergeInv r.toStr sb wd] ++ [tortInv wd]⟩
        rw [hEW] at hcases
        rcases hcases with hres1 | ⟨e, hres1⟩
        · dsimp only at hres1
          subst hres1
          exact Or.inl rfl
        · dsimp only at hres1
          subst hres1
          rcases existWithError_cases env wd st with h2 | ⟨e2, h2⟩
          · exact Or.inl (by simpa using h2)
          · exact Or.inr ⟨e2, by simpa using h2⟩
      · have hres := tort_resolve_rescue env wd
          ⟨s.svnCalls + 1, s.tortCalls, s.trace ++ [mergeInv r.toStr sb wd]⟩ htt
        dsimp only at hres
        simp only [SVMMergeWithTortoise.merge_loop,
          tort_svn_merge_conflict env _ sb wd s hc', hres]
        exact ih ⟨s.svnCalls + 1, s.tortCalls + 1,
          s.trace ++ [mergeInv r.toStr sb wd] ++ [tortInv wd]⟩ hrest

theorem tort_main_loop_eq (env : Env) (cfg : Config) (h : configValid cfg = true)
    (h0 : svnOk env 0 = true) (h1 : svnOk env 1 = true) :
    SVMMergeWithTortoise.main env cfg =
      (match SVMMergeWithTortoise.merge_loop env (cfg.source_branch.getD "")
          (cfg.working_dir.getD "") (cfg.revisions.getD [])
          ⟨2, 0, [switchInv (cfg.target_branch.getD "") (cfg.working_dir.getD ""),
                  updateInv (cfg.working_dir.getD "")]⟩ with
       | (SVMMergeWithTortoise.PyResult.ok, s3) => (0, s3)
       | (SVMMergeWithTortoise.PyResult.exited c, s3) => (c, s3)
       | (SVMMergeWithTortoise.PyResult.raised _, s3) =>
          SVMMergeWithTortoise.outer_handler env (cfg.working_dir.getD "") s3) := by
  have h0' : (env.svn 0).returncode = 0 := (svnOk_true_iff env 0).mp h0
  have h1' : (env.svn 1).returncode = 0 := (svnOk_true_iff env 1).mp h1
  have e2 : (0 : Nat) + 1 + 1 = 2 := rfl
  simp only [SVMMergeWithTortoise.main, h, if_true, svn_switch_eq, initState,
    run_command_of_ok _ _ h0', svn_update_eq, run_command_of_ok _ _ h1', List.nil_append,
    List.singleton_append, e2]

theorem tort_main_fail_switch (env : Env) (cfg : Config) (h : configValid cfg = true)
    (hfail : svnOk env 0 = false) :
    SVMMergeWithTortoise.main env cfg =
      (1, ⟨2, 0, [switchInv (cfg.target_branch.getD "") (cfg.working_dir.getD ""),
                  revertInv (cfg.working_dir.getD "")]⟩) := by
  have h0 : ¬ (env.svn 0).returncode = 0 := (svnOk_false_iff env 0).mp hfail
  simp only [SVMMergeWithTortoise.main, h, if_true, svn_switch_eq, initState,
    run_command_of_err _ _ h0, List.nil_append]
  simp [SVMMergeWithTortoise.outer_handler, existWithError_state]

theorem tort_main_fail_update (env : Env) (cfg : Config) (h : configValid cfg = true)
    (h0 : svnOk env 0 = true) (hfail : svnOk env 1 = false) :
    SVMMergeWithTortoise.main env cfg =
      (1, ⟨3, 0, [switchInv (cfg.target_branch.getD "") (cfg.working_dir.getD ""),
                  updateInv (cfg.working_dir.getD ""),
                  revertInv (cfg.working_dir.getD "")]⟩) := by
  have h0' : (env.svn 0).returncode = 0 := (svnOk_true_iff env 0).mp h0
  have h1' : ¬ (env.svn 1).returncode = 0 := (svnOk_false_iff env 1).mp hfail
  simp only [SVMMergeWithTortoise.main, h, if_true, svn_switch_eq, initState,
    run_command_of_ok _ _ h0', svn_update_eq, run_command_of_err _ _ h1', List.nil_append,
    List.singleton_append]
  simp [SVMMergeWithTortoise.outer_handler, existWithError_state]

theorem tort_main_all_rescued (env : Env) (cfg : Config) (h : configValid cfg = true)
    (h0 : svnOk env 0 = true) (h1 : svnOk env 1 = true)
    (htort : ∀ t, env.tortoise t = ProcOutcome.exited 0) :
    SVMMergeWithTortoise.main env cfg =
      (0, ⟨2 + (cfg.revisions.getD []).length,
           failCount env 2 (cfg.revisions.getD []).length,
           switchInv (cfg.target_branch.getD "") (cfg.working_dir.getD "") ::
             updateInv (cfg.working_dir.getD "") ::
             rescueTrace env (cfg.source_branch.getD "") (cfg.working_dir.getD "") 2
               (cfg.revisions.getD [])⟩) := by
  have hloop := tort_loop_all_rescued env (cfg.source_branch.getD "") (cfg.working_dir.getD "")
    htort (cfg.revisions.getD [])
    ⟨2, 0, [switchInv (cfg.target_branch.getD "") (cfg.working_dir.getD ""),
            updateInv (cfg.working_dir.getD "")]⟩
  dsimp only at hloop
  rw [tort_main_loop_eq env cfg h h0 h1, hloop]
  simp

theorem tort_main_fail_merge (env : Env) (cfg : Config) (h : configValid cfg = true)
    (m : Nat) (hm : m < (cfg.revisions.getD []).length)
    (hbefore : ∀ k, k < 2 + m → svnOk env k = true)
    (hfail : svnOk env (2 + m) = false)
    (htort : env.tortoise 0 = ProcOutcome.notFound ∨
             ∃ c, env.tortoise 0 = ProcOutcome.exited c ∧ c ≠ 0)
    (hrev : svnOk env (2 + m + 1) = true) :
    SVMMergeWithTortoise.main env cfg =
      (1, ⟨2 + m + 2, 1,
           [switchInv (cfg.target_branch.getD "") (cfg.working_dir.getD ""),
            updateInv (cfg.working_dir.getD "")] ++
             ((cfg.revisions.getD []).take (m + 1)).map
               (fun r => mergeInv r.toStr (cfg.source_branch.getD "") (cfg.working_dir.getD ""))
             ++ [tortInv (cfg.working_dir.getD ""), revertInv (cfg.working_dir.getD "")]⟩) := by
  have h0 : svnOk env 0 = true := hbefore 0 (by omega)
  have h1 : svnOk env 1 = true := hbefore 1 (by omega)
  have hloop := tort_loop_fail env (cfg.source_branch.getD "") (cfg.working_dir.getD "")
    (cfg.revisions.getD []) m
    ⟨2, 0, [switchInv (cfg.target_branch.getD "") (cfg.working_dir.getD ""),
            updateInv (cfg.working_dir.getD "")]⟩
    hm
    (fun k hk => hbefore (2 + k) (by omega))
    (hfail)
    (htort)
    (hrev)
  dsimp only at hloop
  rw [tort_main_loop_eq env cfg h h0 h1, hloop]

theorem tort_main_exit (env : Env) (cfg : Config) :
    (SVMMergeWithTortoise.main env cfg).1 =
      if configValid cfg && svnOk env 0 && svnOk env 1 &&
          loopSucceeds env 2 0 (cfg.revisions.getD []) then 0 else 1 := by
  by_cases hv : configValid cfg = true
  · by_cases h0 : svnOk env 0 = true
    · by_cases h1 : svnOk env 1 = true
      · rw [tort_main_loop_eq env cfg hv h0 h1]
        by_cases hls : loopSucceeds env 2 0 (cfg.revisions.getD []) = true
        · have hok := tort_loop_ok_of env (cfg.source_branch.getD "") (cfg.working_dir.getD "")
            (cfg.revisions.getD [])
            ⟨2, 0, [switchInv (cfg.target_branch.getD "") (cfg.working_dir.getD ""),
                    updateInv (cfg.working_dir.getD "")]⟩ hls
          rcases hloop : SVMMergeWithTortoise.merge_loop env (cfg.source_branch.getD "")
            (cfg.working_dir.getD "") (cfg.revisions.getD [])
            ⟨2, 0, [switchInv (cfg.target_branch.getD "") (cfg.working_dir.getD ""),
                    updateInv (cfg.working_dir.getD "")]⟩ with ⟨res, st⟩
          rw [hloop] at hok
          dsimp only at hok
          subst hok
          simp [hv, h0, h1, hls]
        · have hls' : loopSucceeds env 2 0 (cfg.revisions.getD []) = false := by simpa using hls
          have hnot := tort_loop_not_ok env (cfg.source_branch.getD "") (cfg.working_dir.getD "")
            (cfg.revisions.getD [])
            ⟨2, 0, [switchInv (cfg.target_branch.getD "") (cfg.working_dir.getD ""),
                    updateInv (cfg.working_dir.getD "")]⟩ hls'
          rcases hloop : SVMMergeWithTortoise.merge_loop env (cfg.source_branch.getD "")
            (cfg.working_dir.getD "") (cfg.revisions.getD [])
            ⟨2, 0, [switchInv (cfg.target_branch.getD "") (cfg.working_dir.getD ""),
                    updateInv (cfg.working_dir.getD "")]⟩ with ⟨res, st⟩
          rw [hloop] at hnot
          dsimp only at hnot
          rcases hnot with hres | ⟨e, hres⟩ <;> subst hres <;>
            simp [hls', SVMMergeWithTortoise.outer_handler]
      · have h1' : svnOk env 1 = false := by simpa using h1
        rw [tort_main_fail_update env cfg hv h0 h1']
        simp [h1']
    · have h0' : svnOk env 0 = false := by simpa using h0
      rw [tort_main_fail_switch env cfg hv h0']
      simp [h0']
  · have hv' : configValid cfg = false := by simpa using hv
    rw [(configValid_false_main env cfg hv').2]
    simp [hv']

/-- C3: interactive variant.  Part one: if every hand-off to the interactive
tool exits 0, then a run whose switch and update succeed exits 0 (success for
the whole run, without independent verification), never reverts, merges
every revision in order, and invokes the tool exactly once per failing
merge.  Part two: if the merge of revision m is the first failure and the
interactive tool is unavailable or exits non-zero, then (when the revert
succeeds) the run exits 1 after exactly one revert and one tool invocation,
and no later revision is attempted. -/
theorem C3_interactive_handoff (env : Env) (sb tb wd : String) (revs : List Rev)
    (hs : sb ≠ "") (ht : tb ≠ "") (hw : wd ≠ "") (hr : revs ≠ [])
    (h0 : svnOk env 0 = true) (h1 : svnOk env 1 = true) :
    ((∀ t, env.tortoise t = ProcOutcome.exited 0) →
      (SVMMergeWithTortoise.main env ⟨some sb, some tb, some wd, some revs⟩).1 = 0 ∧
      countRevert
        (SVMMergeWithTortoise.main env ⟨some sb, some tb, some wd, some revs⟩).2.trace = 0 ∧
      mergeInvs
        (SVMMergeWithTortoise.main env ⟨some sb, some tb, some wd, some revs⟩).2.trace =
        revs.map (fun r => mergeInv r.toStr sb wd) ∧
      countTortoise
        (SVMMergeWithTortoise.main env ⟨some sb, some tb, some wd, some revs⟩).2.trace =
        failCount env 2 revs.length) ∧
    (∀ m, m < revs.length →
      (∀ k, k < 2 + m → svnOk env k = true) →
      svnOk env (2 + m) = false →
      (env.tortoise 0 = ProcOutcome.notFound ∨
       ∃ c, env.tortoise 0 = ProcOutcome.exited c ∧ c ≠ 0) →
      svnOk env (2 + m + 1) = true →
      (SVMMergeWithTortoise.main env ⟨some sb, some tb, some wd, some revs⟩).1 = 1 ∧
      countRevert
        (SVMMergeWithTortoise.main env ⟨some sb, some tb, some wd, some revs⟩).2.trace = 1 ∧
      countTortoise
        (SVMMergeWithTortoise.main env ⟨some sb, some tb, some wd, some revs⟩).2.trace = 1 ∧
      mergeInvs
        (SVMMergeWithTortoise.main env ⟨some sb, some tb, some wd, some revs⟩).2.trace =
        (revs.take (m + 1)).map (fun r => mergeInv r.toStr sb wd)) := by
  have hv := configValid_mk sb tb wd revs hs ht hw hr
  constructor
  · intro htort
    have hmain := tort_main_all_rescued env ⟨some sb, some tb, some wd, some revs⟩ hv h0 h1 htort
    simp only [Option.getD_some] at hmain
    rw [hmain]
    refine ⟨rfl, ?_, ?_, ?_⟩
    · simp [countRevert_cons, countRevert_rescueTrace env sb wd revs]
    · simp [mergeInvs_cons, mergeInvs_rescueTrace env sb wd revs]
    · simp [countTortoise_cons, countTortoise_rescueTrace env sb wd revs]
  · intro m hm hbefore hfail htort hrev
    have hm' : m < (Option.getD (Config.mk (some sb) (some tb) (some wd) (some revs)).revisions []).length := by
      simpa using hm
    have hmain := tort_main_fail_merge env ⟨some sb, some tb, some wd, some revs⟩ hv m hm'
      hbefore hfail htort hrev
    simp only [Option.getD_some] at hmain
    rw [hmain]
    refine ⟨rfl, ?_, ?_, ?_⟩
    · simp [countRevert_cons, countRevert_mergeMap, countRevert_take_mergeMap]
    · simp [countTortoise_cons, countTortoise_mergeMap, countTortoise_take_mergeMap]
    · simp [mergeInvs_cons, mergeInvs_mergeMap, mergeInvs_take_mergeMap]

/-- Witness for C3: plan `[43]`.  First conjunct: the merge of revision 43
(command 2) fails and every TortoiseSVN invocation exits 0, so the run
reports success with no revert and one tool invocation.  Second conjunct: in
an environment where the tool is unavailable, the same failing merge leads
to exit 1 with exactly one revert and one tool attempt. -/
theorem C3_interactive_handoff_witness :
    ((SVMMergeWithTortoise.main ⟨fun k => if k = 2 then ⟨1, "", ""⟩ else ⟨0, "", ""⟩,
          fun _ => ProcOutcome.exited 0⟩
        ⟨some "/src", some "/tgt", some "/wc", some [Rev.int 43]⟩).1 = 0 ∧
      countRevert (SVMMergeWithTortoise.main ⟨fun k => if k = 2 then ⟨1, "", ""⟩ else ⟨0, "", ""⟩,
          fun _ => ProcOutcome.exited 0⟩
        ⟨some "/src", some "/tgt", some "/wc", some [Rev.int 43]⟩).2.trace = 0 ∧
      mergeInvs (SVMMergeWithTortoise.main ⟨fun k => if k = 2 then ⟨1, "", ""⟩ else ⟨0, "", ""⟩,
          fun _ => ProcOutcome.exited 0⟩
        ⟨some "/src", some "/tgt", some "/wc", some [Rev.int 43]⟩).2.trace =
        [Rev.int 43].map (fun r => mergeInv r.toStr "/src" "/wc") ∧
      countTortoise (SVMMergeWithTortoise.main ⟨fun k => if k = 2 then ⟨1, "", ""⟩ else ⟨0, "", ""⟩,
          fun _ => ProcOutcome.exited 0⟩
        ⟨some "/src", some "/tgt", some "/wc", some [Rev.int 43]⟩).2.trace =
        failCount ⟨fun k => if k = 2 then ⟨1, "", ""⟩ else ⟨0, "", ""⟩,
          fun _ => ProcOutcome.exited 0⟩ 2 [Rev.int 43].length) ∧
    ((SVMMergeWithTortoise.main ⟨fun k => if k = 2 then ⟨1, "", ""⟩ else ⟨0, "", ""⟩,
          fun _ => ProcOutcome.notFound⟩
        ⟨some "/src", some "/tgt", some "/wc", some [Rev.int 43]⟩).1 = 1 ∧
      countRevert (SVMMergeWithTortoise.main ⟨fun k => if k = 2 then ⟨1, "", ""⟩ else ⟨0, "", ""⟩,
          fun _ => ProcOutcome.notFound⟩
        ⟨some "/src", some "/tgt", some "/wc", some [Rev.int 43]⟩).2.trace = 1 ∧
      countTortoise (SVMMergeWithTortoise.main ⟨fun k => if k = 2 then ⟨1, "", ""⟩ else ⟨0, "", ""⟩,
          fun _ => ProcOutcome.notFound⟩
        ⟨some "/src", some "/tgt", some "/wc", some [Rev.int 43]⟩).2.trace = 1 ∧
      mergeInvs (SVMMergeWithTortoise.main ⟨fun k => if k = 2 then ⟨1, "", ""⟩ else ⟨0, "", ""⟩,
          fun _ => ProcOutcome.notFound⟩
        ⟨some "/src", some "/tgt", some "/wc", some [Rev.int 43]⟩).2.trace =
        ([Rev.int 43].take (0 + 1)).map (fun r => mergeInv r.toStr "/src" "/wc")) :=
  ⟨(C3_interactive_handoff ⟨fun k => if k = 2 then ⟨1, "", ""⟩ else ⟨0, "", ""⟩,
        fun _ => ProcOutcome.exited 0⟩
      "/src" "/tgt" "/wc" [Rev.int 43]
      (by decide) (by decide) (by decide) (by decide) (by decide) (by decide)).1
      (fun t => rfl),
   (C3_interactive_handoff ⟨fun k => if k = 2 then ⟨1, "", ""⟩ else ⟨0, "", ""⟩,
        fun _ => ProcOutcome.notFound⟩
      "/src" "/tgt" "/wc" [Rev.int 43]
      (by decide) (by decide) (by decide) (by decide) (by decide) (by decide)).2
      0 (by decide) (by decide) (by decide) (Or.inl rfl) (by decide)⟩

/-- C10: interactive variant.  When the merge of revision m is the first
failure, the interactive tool is unavailable or exits non-zero, and the
revert performed by `existWithError` succeeds, then the revert operation is
invoked exactly once and the process exits with status 1: the `SystemExit`
raised inside `existWithError` is not intercepted by the `except Exception`
handlers of `main`, so no second revert occurs. -/
theorem C10_systemexit_single_revert (env : Env) (sb tb wd : String) (revs : List Rev)
    (hs : sb ≠ "") (ht : tb ≠ "") (hw : wd ≠ "") (hr : revs ≠ [])
    (m : Nat) (hm : m < revs.length)
    (hbefore : ∀ k, k < 2 + m → svnOk env k = true)
    (hfail : svnOk env (2 + m) = false)
    (htort : env.tortoise 0 = ProcOutcome.notFound ∨
             ∃ c, env.tortoise 0 = ProcOutcome.exited c ∧ c ≠ 0)
    (hrev : svnOk env (2 + m + 1) = true) :
    (SVMMergeWithTortoise.main env ⟨some sb, some tb, some wd, some revs⟩).1 = 1 ∧
    countRevert
      (SVMMergeWithTortoise.main env ⟨some sb, some tb, some wd, some revs⟩).2.trace = 1 := by
  have hv := configValid_mk sb tb wd revs hs ht hw hr
  have hm' : m < (Option.getD (Config.mk (some sb) (some tb) (some wd) (some revs)).revisions []).length := by
    simpa using hm
  have hmain := tort_main_fail_merge env ⟨some sb, some tb, some wd, some revs⟩ hv m hm'
    hbefore hfail htort hrev
  simp only [Option.getD_some] at hmain
  rw [hmain]
  refine ⟨rfl, ?_⟩
  simp [countRevert_cons, countRevert_mergeMap, countRevert_take_mergeMap]

/-- Witness for C10: plan `[43]`, merge fails, TortoiseSVN exits 5, revert
succeeds: exit status 1 and exactly one revert. -/
theorem C10_systemexit_single_revert_witness :
    (SVMMergeWithTortoise.main ⟨fun k => if k = 2 then ⟨1, "", ""⟩ else ⟨0, "", ""⟩,
        fun _ => ProcOutcome.exited 5⟩
      ⟨some "/src", some "/tgt", some "/wc", some [Rev.int 43]⟩).1 = 1 ∧
    countRevert (SVMMergeWithTortoise.main ⟨fun k => if k = 2 then ⟨1, "", ""⟩ else ⟨0, "", ""⟩,
        fun _ => ProcOutcome.exited 5⟩
      ⟨some "/src", some "/tgt", some "/wc", some [Rev.int 43]⟩).2.trace = 1 :=
  C10_systemexit_single_revert ⟨fun k => if k = 2 then ⟨1, "", ""⟩ else ⟨0, "", ""⟩,
      fun _ => ProcOutcome.exited 5⟩
    "/src" "/tgt" "/wc" [Rev.int 43]
    (by decide) (by decide) (by decide) (by decide) 0 (by decide)
    (by decide) (by decide) (Or.inr ⟨5, rfl, by decide⟩) (by decide)

/-- C6: the process exit status is 0 exactly on full success and 1
otherwise.  Strict variant: exit 0 iff the configuration is valid and the
switch, the update and every merge succeed.  Interactive variant: exit 0 iff
the configuration is valid, switch and update succeed, and every revision is
processed (each merge succeeds or its hand-off to the interactive tool exits
0); in every other case (validation failure, command failure, rollback) the
exit status is 1. -/
theorem C6_exit_status (env : Env) (cfg : Config) :
    (SVNMerge.main env cfg).1 =
      (if configValid cfg && allOk env (2 + (cfg.revisions.getD []).length) then 0 else 1) ∧
    (SVMMergeWithTortoise.main env cfg).1 =
      (if configValid cfg && svnOk env 0 && svnOk env 1 &&
          loopSucceeds env 2 0 (cfg.revisions.getD []) then 0 else 1) :=
  ⟨strict_main_exit env cfg, tort_main_exit env cfg⟩

/-- C7: in both variants, the merge operation launches the version-control
merge command for exactly the one given revision identifier (`-c revision`)
with the automatic conflict policy `--accept theirs-full`.  In the strict
variant this is the only invocation added; in the interactive variant it is
the first invocation added (a hand-off may follow it). -/
theorem C7_merge_single_revision_theirs_full (env : Env) (rev sb wd : String) (s : RunState) :
    (SVNMerge.svn_merge env rev sb wd s).2.trace =
      s.trace ++ [⟨["svn", "merge", "-c", rev, sb, "--accept", "theirs-full"], some wd⟩] ∧
    ∃ rest, (SVMMergeWithTortoise.svn_merge env rev sb wd s).2.trace =
      s.trace ++ ⟨["svn", "merge", "-c", rev, sb, "--accept", "theirs-full"], some wd⟩ :: rest := by
  constructor
  · rfl
  · by_cases hc : svnOk env s.svnCalls = true
    · rw [tort_svn_merge_ok env rev sb wd s hc]
      exact ⟨[], rfl⟩
    · have hc' : svnOk env s.svnCalls = false := by simpa using hc
      rw [tort_svn_merge_conflict env rev sb wd s hc']
      rcases htt : env.tortoise s.tortCalls with _ | code
      · have hres := tort_resolve_fail env wd
          ⟨s.svnCalls + 1, s.tortCalls, s.trace ++ [mergeInv rev sb wd]⟩ (Or.inl htt)
        dsimp only at hres
        rw [hres]
        refine ⟨[tortInv wd, revertInv wd], ?_⟩
        rw [existWithError_state]
        simp [mergeInv, mergeCmd]
      · by_cases hc0 : code = 0
        · subst hc0
          have hres := tort_resolve_rescue env wd
            ⟨s.svnCalls + 1, s.tortCalls, s.trace ++ [mergeInv rev sb wd]⟩ htt
          dsimp only at hres
          rw [hres]
          refine ⟨[tortInv wd], ?_⟩
          simp [mergeInv, mergeCmd]
        · have hres := tort_resolve_fail env wd
            ⟨s.svnCalls + 1, s.tortCalls, s.trace ++ [mergeInv rev sb wd]⟩
            (Or.inr ⟨code, htt, hc0⟩)
          dsimp only at hres
          rw [hres]
          refine ⟨[tortInv wd, revertInv wd], ?_⟩
          rw [existWithError_state]
          simp [mergeInv, mergeCmd]

/-- C8: for every external command whose process exits non-zero,
`run_command` fails with an error that carries the invoked command (joined
by spaces), the numeric exit code, and both captured output streams
(stripped stdout and stderr), each occurring verbatim inside the error
message. -/
theorem C8_error_carries_details (command : List String) (out : CmdOutput)
    (h : out.returncode ≠ 0) :
    ∃ e, run_command command out = Except.error e ∧
      (∃ a b, e = a ++ String.intercalate " " command ++ b) ∧
      (∃ a b, e = a ++ toString out.returncode ++ b) ∧
      (∃ a b, e = a ++ out.stdout.trim ++ b) ∧
      (∃ a b, e = a ++ out.stderr.trim ++ b) := by
  refine ⟨error_message command out, run_command_of_err _ _ h, ?_, ?_, ?_, ?_⟩
  · refine ⟨"Command failed: ",
      "\n" ++ "Return code: " ++ toString out.returncode ++ "\n" ++
        "Output: " ++ out.stdout.trim ++ "\n" ++ "Error: " ++ out.stderr.trim, ?_⟩
    simp [error_message, String.append_assoc]
  · refine ⟨"Command failed: " ++ String.intercalate " " command ++ "\n" ++ "Return code: ",
      "\n" ++ "Output: " ++ out.stdout.trim ++ "\n" ++ "Error: " ++ out.stderr.trim, ?_⟩
    simp [error_message, String.append_assoc]
  · refine ⟨"Command failed: " ++ String.intercalate " " command ++ "\n" ++ "Return code: " ++
        toString out.returncode ++ "\n" ++ "Output: ",
      "\n" ++ "Error: " ++ out.stderr.trim, ?_⟩
    simp [error_message, String.append_assoc]
  · refine ⟨"Command failed: " ++ String.intercalate " " command ++ "\n" ++ "Return code: " ++
        toString out.returncode ++ "\n" ++ "Output: " ++ out.stdout.trim ++ "\n" ++ "Error: ",
      "", ?_⟩
    simp [error_message, String.append_assoc, String.append_empty]

/-- Witness for C8: the command `svn merge` exiting 1 with outputs " out "
and "err" yields an error string carrying all four components. -/
theorem C8_error_carries_details_witness :
    ∃ e, run_command ["svn", "merge"] ⟨1, " out ", "err"⟩ = Except.error e ∧
      (∃ a b, e = a ++ String.intercalate " " ["svn", "merge"] ++ b) ∧
      (∃ a b, e = a ++ toString (⟨1, " out ", "err"⟩ : CmdOutput).returncode ++ b) ∧
      (∃ a b, e = a ++ (⟨1, " out ", "err"⟩ : CmdOutput).stdout.trim ++ b) ∧
      (∃ a b, e = a ++ (⟨1, " out ", "err"⟩ : CmdOutput).stderr.trim ++ b) :=
  C8_error_carries_details ["svn", "merge"] ⟨1, " out ", "err"⟩ (by decide)
